import Mathlib

/-!
Verification of the web-safe-checker repository.

The repository has two React components:
* `SecurityScanner.tsx` (Component A): validates a URL, then runs two
  simulated checks (Safe Browsing mock and SSL-grade mock) concurrently and
  joins them with `Promise.all`.
* `WebsiteSecurityChecker.tsx` (Component B): validates a URL, then POSTs it
  to the Google Safe Browsing endpoint and interprets the match list.

We embed the pure logic of both components directly.  Randomness
(`Math.random()`) becomes an explicit parameter; the network becomes an
explicit `FetchOutcome` value; each handler becomes a function producing the
ordered list of state-mutation/notification events it performs, and the final
component state is the fold of those events over the initial state.
-/

/-- Substring helper: does the list start with the given pattern?
Models the character-by-character prefix test underlying JS `includes`. -/
def leadsWith : List Char → List Char → Bool
  | [], _ => true
  | _ :: _, [] => false
  | a :: as, b :: bs => a == b && leadsWith as bs

/-- Does `hay` contain `sub` as a contiguous run?  Models JS
`String.prototype.includes`. -/
def charsContain (sub : List Char) : List Char → Bool
  | [] => sub.isEmpty
  | c :: cs => leadsWith sub (c :: cs) || charsContain sub cs

/-- JS `hay.includes(sub)` on strings. -/
def strContains (hay sub : String) : Bool :=
  charsContain sub.toList hay.toList

/-- JS `s.startsWith(pre)` on strings. -/
def strStartsWith (s pre : String) : Bool :=
  leadsWith pre.toList s.toList

/-- ASCII lower-casing of one character. -/
def lowerChar (c : Char) : Char :=
  if 65 ≤ c.toNat && c.toNat ≤ 90 then Char.ofNat (c.toNat + 32) else c

/-- ASCII lower-casing of a string (the host lower-casing of the URL
parser; all hosts in play are ASCII). -/
def strLower (s : String) : String :=
  String.mk (s.toList.map lowerChar)

/-- JS `s.trim()`: strip leading and trailing whitespace. -/
def strTrim (s : String) : String :=
  String.mk (((s.toList.dropWhile Char.isWhitespace).reverse.dropWhile
    Char.isWhitespace).reverse)

/-- JS `s.replace(/_/g, ' ')`: every underscore becomes a space. -/
def replaceUnderscores (s : String) : String :=
  String.mk (s.toList.map (fun c => if c = '_' then ' ' else c))

/-- A toast notification as issued through `useToast`. -/
structure Toast where
  title : String
  description : String
  destructive : Bool
deriving DecidableEq, Repr

/-! ## URL model

Both components call the browser's WHATWG `new URL(...)` constructor.  That
constructor is platform code, not part of this repository, so we model the
fragment of its behaviour the components exercise.  After normalization every
string handed to the parser starts with `http://` or `https://`, so the model
covers exactly those inputs: it splits off the authority (up to the first
`/`, `?`, `#` or `\`), separates an optional `:port`, rejects hosts that are
empty or contain a forbidden host code point, lower-cases the host, and
serializes `href` as `scheme://host[:port]path` with `/` for an empty path.
Userinfo (`@`), IDNA mapping and percent-encoding are not modelled; none of
the inputs reasoned about below use them. -/

/-- Forbidden host code points of the WHATWG URL standard (the colon is
handled separately by port splitting). -/
def forbiddenHostChar (c : Char) : Bool :=
  c.toNat < 0x20 || c = ' ' || c = '#' || c = '/' || c = ':' || c = '<' ||
  c = '>' || c = '?' || c = '@' || c = '[' || c = '\\' || c = ']' ||
  c = '^' || c = '|'

/-- A parsed URL: scheme, lower-cased host, optional port digits, raw path
remainder. -/
structure URLRec where
  scheme : String
  host : String
  port : String
  rest : String
deriving DecidableEq, Repr

/-- The characters that terminate the authority section. -/
def authorityEnd (c : Char) : Bool :=
  c = '/' || c = '?' || c = '#' || c = '\\'

/-- Split an authority string at its first colon into host and port parts. -/
def splitPort (auth : String) : String × String :=
  let cs := auth.toList
  let host := cs.takeWhile (fun c => !(c = ':'))
  let rest := cs.drop host.length
  match rest with
  | [] => (String.mk host, "")
  | _ :: ps => (String.mk host, String.mk ps)

/-- Parse the part after `scheme://`. -/
def parseAfterScheme (scheme rest : String) : Option URLRec :=
  let cs := rest.toList
  let auth := cs.takeWhile (fun c => !authorityEnd c)
  let remainder := String.mk (cs.drop auth.length)
  let hp := splitPort (String.mk auth)
  let host := hp.1
  let port := hp.2
  if host.isEmpty then none
  else if host.toList.any forbiddenHostChar then none
  else if !(port.toList.all Char.isDigit) then none
  else some ⟨scheme, strLower host, port, remainder⟩

/-- Model of `new URL(s)` restricted to strings starting with `http://` or
`https://` (the only strings the components pass to it after
normalization). `none` models the constructor throwing. -/
def parseURL (s : String) : Option URLRec :=
  if strStartsWith s "http://" then parseAfterScheme "http" (s.drop 7)
  else if strStartsWith s "https://" then parseAfterScheme "https" (s.drop 8)
  else none

/-- Serialization of the `href` property: empty path serializes as `/`. -/
def URLRec.href (u : URLRec) : String :=
  u.scheme ++ "://" ++ u.host ++ (if u.port.isEmpty then "" else ":" ++ u.port)
    ++ (if u.rest.isEmpty then "/" else u.rest)

/-- The `hostname` property. -/
def URLRec.hostname (u : URLRec) : String := u.host

/-! ## Shared normalization

Both components' `validateUrl` begin with the same scheme-prefix step. -/

/-- Does the string already carry an explicit http/https prefix? -/
def hasHttpPrefix (s : String) : Bool :=
  strStartsWith s "http://" || strStartsWith s "https://"

/-- The scheme-prepending step of `validateUrl` (identical in both
components): add `https://` when the http/https prefix is missing. -/
def normalizeUrl (s : String) : String :=
  if hasHttpPrefix s then s else "https://" ++ s

namespace ComponentA

/-- `validateUrl` of `SecurityScanner.tsx`: normalize, parse, return the
hostname; a parse failure throws `Error('Please enter a valid URL')`. -/
def validateUrl (inputUrl : String) : Except String String :=
  match parseURL (normalizeUrl inputUrl) with
  | some u => .ok u.hostname
  | none => .error "Please enter a valid URL"

/-- Status values of the `safeBrowsing` field of `SecurityResult`; `notSafe`
models the literal string value between `safe` and `unknown` in the TS
union type. -/
inductive SBStatus where
  | safe
  | notSafe
  | unknown
deriving DecidableEq, Repr

/-- The record returned by `checkSafeBrowsing`. -/
structure SBRecord where
  status : SBStatus
  details : String
deriving DecidableEq, Repr

/-- Status values of the `sslGrade` field of `SecurityResult`. -/
inductive SSLStatus where
  | excellent
  | good
  | warning
  | poor
deriving DecidableEq, Repr

/-- The record returned by `checkSSL`. -/
structure SSLRecord where
  grade : String
  status : SSLStatus
  details : String
deriving DecidableEq, Repr

/-- The `SecurityResult` interface of `SecurityScanner.tsx`. -/
structure SecurityResult where
  safeBrowsing : SBRecord
  sslGrade : SSLRecord
deriving DecidableEq, Repr

/-- The hard-coded always-safe domains of `checkSafeBrowsing`. -/
def mockSafeResults : List String := ["google.com", "github.com", "stackoverflow.com"]

/-- `checkSafeBrowsing` with the `Math.random()` draw made explicit as a
rational `r`: safe iff the domain contains a mock-safe domain or `r > 0.3`. -/
def checkSafeBrowsing (domain : String) (r : ℚ) : SBRecord :=
  let isSafe := mockSafeResults.any (fun safe => strContains domain safe) || decide (r > 3/10)
  { status := if isSafe then .safe else .notSafe
    details := if isSafe then "No threats detected" else "Potential security threats found" }

/-- The grade table of `checkSSL`. -/
def grades : List String := ["A+", "A", "A-", "B", "C", "F"]

/-- `checkSSL` with the random index `Math.floor(Math.random()*6)` made
explicit as `i` (the code always produces `i < 6`). -/
def checkSSL (i : Nat) : SSLRecord :=
  let grade := grades.getD i "F"
  let status : SSLStatus :=
    if strStartsWith grade "A" then .excellent
    else if grade = "B" then .good
    else if grade = "C" then .warning
    else .poor
  { grade := grade, status := status, details := "SSL certificate grade: " ++ grade }

/-- Component A's React state relevant to `handleScan`. -/
structure AState where
  url : String
  isScanning : Bool
  results : Option SecurityResult
deriving DecidableEq, Repr

/-- The environment a single run of `handleScan` consumes: the two random
draws of the mock checks. -/
structure AEnv where
  sbRand : ℚ
  sslIdx : Nat
deriving DecidableEq, Repr

/-- One observable step of `handleScan`: a `setIsScanning`/`setResults`
state update, the resolution of one of the two awaited checks
(`0` = Safe Browsing at 1.5 s, `1` = SSL at 2.0 s), or a toast. -/
inductive AEvent where
  | setScanning (b : Bool)
  | setResults (r : Option SecurityResult)
  | checkResolved (which : Nat)
  | toastShown (t : Toast)
deriving DecidableEq, Repr

/-- The ordered event sequence of one `handleScan` invocation.  The empty
URL guard returns before any state change; a `validateUrl` throw is caught
(toast) and `finally` resets the flag; on the success path the two checks
are started together and `Promise.all` resumes only after both have
resolved (Safe Browsing first at 1.5 s, SSL at 2.0 s). -/
def handleScanTrace (s : AState) (env : AEnv) : List AEvent :=
  if strTrim s.url = "" then
    [.toastShown ⟨"URL Required", "Please enter a website URL to scan", true⟩]
  else
    match validateUrl (strTrim s.url) with
    | .error msg =>
        [.toastShown ⟨"Scan Failed", msg, true⟩, .setScanning false]
    | .ok domain =>
        [.setScanning true, .setResults none,
         .checkResolved 0, .checkResolved 1,
         .setResults (some ⟨checkSafeBrowsing domain env.sbRand, checkSSL env.sslIdx⟩),
         .toastShown ⟨"Scan Complete", "Security scan completed for " ++ domain, false⟩,
         .setScanning false]

/-- Effect of one event on the component state. -/
def applyAEvent (s : AState) : AEvent → AState
  | .setScanning b => { s with isScanning := b }
  | .setResults r => { s with results := r }
  | .checkResolved _ => s
  | .toastShown _ => s

/-- The component state after `handleScan` finishes. -/
def runHandleScan (s : AState) (env : AEnv) : AState :=
  (handleScanTrace s env).foldl applyAEvent s

/-- The toasts issued during one `handleScan` invocation, in order. -/
def scanToasts (s : AState) (env : AEnv) : List Toast :=
  (handleScanTrace s env).filterMap (fun e =>
    match e with
    | .toastShown t => some t
    | _ => none)

/-- Recognizer for the resolution event of check `w` (used to count how
often each mock check runs in a single scan). -/
def isCheckEvent (w : Nat) : AEvent → Bool
  | .checkResolved w2 => w2 == w
  | _ => false

end ComponentA

namespace ComponentB

/-- `validateUrl` of `WebsiteSecurityChecker.tsx`: normalize, parse, return
the canonical `href`; a parse failure throws
`Error('Please enter a valid URL')`. -/
def validateUrl (inputUrl : String) : Except String String :=
  match parseURL (normalizeUrl inputUrl) with
  | some u => .ok u.href
  | none => .error "Please enter a valid URL"

/-- The `ThreatMatch` interface of the Safe Browsing response. -/
structure ThreatMatch where
  threatType : String
  platformType : String
  threatEntryType : String
  threatUrl : String
deriving DecidableEq, Repr

/-- The result record stored in Component B's `result` state. -/
structure BResult where
  safe : Bool
  threats : Option (List String)
deriving DecidableEq, Repr

/-- Component B's React state relevant to `checkSafety`. -/
structure BState where
  url : String
  isChecking : Bool
  result : Option BResult
deriving DecidableEq, Repr

/-- What the awaited `fetch` produces: either a thrown network-layer error
(with its JS `TypeError`-ness and message) or a response with an HTTP
status and a decoded `matches` field (absent modelled as `none`). -/
inductive FetchOutcome where
  | networkError (isTypeError : Bool) (msg : String)
  | response (status : Nat) (mts : Option (List ThreatMatch))
deriving DecidableEq, Repr

/-- `Response.ok` of the fetch API: status in the 2xx range. -/
def responseOk (status : Nat) : Bool :=
  200 ≤ status && status ≤ 299

/-- One observable step of `checkSafety`. -/
inductive BEvent where
  | setChecking (b : Bool)
  | setResult (r : Option BResult)
  | fetchStarted
  | toastShown (t : Toast)
deriving DecidableEq, Repr

/-- The CORS-hint heuristic of the catch block:
`error instanceof TypeError && error.message.includes('fetch')`. -/
def corsHeuristic (isTypeError : Bool) (msg : String) : Bool :=
  isTypeError && strContains msg "fetch"

/-- The ordered event sequence of one `checkSafety` invocation.  The empty
URL guard returns before any state change; a `validateUrl` throw is caught
before `setIsChecking(true)` ran, so only the toast and the `finally` reset
appear; otherwise the flag is set, the result cleared, the request issued,
and the response or error handled as in the source. -/
def checkSafetyTrace (s : BState) (env : FetchOutcome) : List BEvent :=
  if strTrim s.url = "" then
    [.toastShown ⟨"URL Required", "Please enter a website URL to check", true⟩]
  else
    match validateUrl (strTrim s.url) with
    | .error msg =>
        [.toastShown ⟨"Check Failed", msg, true⟩, .setChecking false]
    | .ok _validatedUrl =>
        .setChecking true :: .setResult none :: .fetchStarted ::
        (match env with
         | .networkError isTE msg =>
             [.toastShown
                (if corsHeuristic isTE msg then
                   ⟨"Connection Error",
                    "Unable to connect to security service. This may be due to CORS restrictions.",
                    true⟩
                 else ⟨"Check Failed", msg, true⟩),
              .setChecking false]
         | .response status mts =>
             if responseOk status then
               match mts with
               | none =>
                   [.setResult (some ⟨true, none⟩),
                    .toastShown ⟨"Scan Complete", "Website is safe to visit", false⟩,
                    .setChecking false]
               | some [] =>
                   [.setResult (some ⟨true, none⟩),
                    .toastShown ⟨"Scan Complete", "Website is safe to visit", false⟩,
                    .setChecking false]
               | some (m :: ms) =>
                   [.setResult (some ⟨false, some ((m :: ms).map (fun mm => mm.threatType))⟩),
                    .toastShown ⟨"Security Warning", "Potential threats detected", true⟩,
                    .setChecking false]
             else
               [.toastShown ⟨"Check Failed", "API Error: " ++ toString status, true⟩,
                .setChecking false])

/-- Effect of one event on the component state. -/
def applyBEvent (s : BState) : BEvent → BState
  | .setChecking b => { s with isChecking := b }
  | .setResult r => { s with result := r }
  | .fetchStarted => s
  | .toastShown _ => s

/-- The component state after `checkSafety` finishes. -/
def runCheckSafety (s : BState) (env : FetchOutcome) : BState :=
  (checkSafetyTrace s env).foldl applyBEvent s

/-- The toasts issued during one `checkSafety` invocation, in order. -/
def checkToasts (s : BState) (env : FetchOutcome) : List Toast :=
  (checkSafetyTrace s env).filterMap (fun e =>
    match e with
    | .toastShown t => some t
    | _ => none)

/-- The threat tags the result card renders: nothing when the result is
safe, otherwise `result.threats` each with underscores replaced by
spaces (`threat.replace(/_/g, ' ')`). -/
def renderedThreatTags (r : BResult) : List String :=
  if r.safe then [] else (r.threats.getD []).map replaceUnderscores

/-- Recognizer for the request-issuing event (used to count how many
requests a single `checkSafety` run makes). -/
def isFetchEvent : BEvent → Bool
  | .fetchStarted => true
  | _ => false

end ComponentB

/-! ## Claims -/

/-- C2: an input without an http/https prefix is normalized by prepending
`https://`; an input already starting with `http://` or `https://` is passed
to the parser unchanged. -/
theorem claim_C2_normalization (s : String) :
    (hasHttpPrefix s = false → normalizeUrl s = "https://" ++ s) ∧
    (hasHttpPrefix s = true → normalizeUrl s = s) := by
  constructor <;> intro h <;> simp [normalizeUrl, h]

/-- Witness for C2 at the inputs `"example.com"` and `"http://x"`. -/
theorem claim_C2_normalization_witness :
    hasHttpPrefix "example.com" = false ∧
    normalizeUrl "example.com" = "https://" ++ "example.com" ∧
    hasHttpPrefix "http://x" = true ∧
    normalizeUrl "http://x" = "http://x" :=
  ⟨by rfl, (claim_C2_normalization "example.com").1 (by rfl),
   by rfl, (claim_C2_normalization "http://x").2 (by rfl)⟩

/-- C3: `validateUrl` (both components) fails exactly when the normalized
input does not parse as a URL, always with the message
`"Please enter a valid URL"`; in particular `"not a url"` fails so. -/
theorem claim_C3_validation_failure (s : String) :
    ((∃ e, ComponentA.validateUrl s = .error e) ↔ parseURL (normalizeUrl s) = none) ∧
    ((∃ e, ComponentB.validateUrl s = .error e) ↔ parseURL (normalizeUrl s) = none) ∧
    (∀ e, ComponentA.validateUrl s = .error e → e = "Please enter a valid URL") ∧
    (∀ e, ComponentB.validateUrl s = .error e → e = "Please enter a valid URL") ∧
    ComponentA.validateUrl "not a url" = .error "Please enter a valid URL" ∧
    ComponentB.validateUrl "not a url" = .error "Please enter a valid URL" := by
  refine ⟨?_, ?_, ?_, ?_, by rfl, by rfl⟩ <;>
    cases h : parseURL (normalizeUrl s) <;>
      simp [ComponentA.validateUrl, ComponentB.validateUrl, h]

/-- Witness for C3 at the input `"not a url"`. -/
theorem claim_C3_validation_failure_witness :
    ComponentA.validateUrl "not a url" = .error "Please enter a valid URL" ∧
    parseURL (normalizeUrl "not a url") = none :=
  ⟨(claim_C3_validation_failure "x").2.2.2.2.1,
   (claim_C3_validation_failure "not a url").1.mp ⟨"Please enter a valid URL", by rfl⟩⟩

/-- C5: on the input `"example.com"`, Component A's `validateUrl` returns
the hostname `"example.com"` and Component B's returns the canonical href
`"https://example.com/"`. -/
theorem claim_C5_example_com :
    ComponentA.validateUrl "example.com" = .ok "example.com" ∧
    ComponentB.validateUrl "example.com" = .ok "https://example.com/" :=
  ⟨by rfl, by rfl⟩

/-- C6: `checkSafeBrowsing` always classifies as `safe` or the unsafe label
(never `unknown`), it is safe exactly when the domain contains one of the
mock-safe domains or the random draw exceeds 0.3, and the details string is
`"No threats detected"` when safe and `"Potential security threats found"`
otherwise. -/
theorem claim_C6_checkSafeBrowsing (domain : String) (r : ℚ) :
    ((ComponentA.checkSafeBrowsing domain r).status = ComponentA.SBStatus.safe ∨
     (ComponentA.checkSafeBrowsing domain r).status = ComponentA.SBStatus.notSafe) ∧
    ((ComponentA.checkSafeBrowsing domain r).status = ComponentA.SBStatus.safe ↔
      ((∃ d ∈ ComponentA.mockSafeResults, strContains domain d = true) ∨ r > 3/10)) ∧
    ((ComponentA.checkSafeBrowsing domain r).status = ComponentA.SBStatus.safe →
      (ComponentA.checkSafeBrowsing domain r).details = "No threats detected") ∧
    ((ComponentA.checkSafeBrowsing domain r).status = ComponentA.SBStatus.notSafe →
      (ComponentA.checkSafeBrowsing domain r).details = "Potential security threats found") := by
  by_cases h : (ComponentA.mockSafeResults.any (fun safe => strContains domain safe)
      || decide (r > 3/10)) = true
  · have hs : (∃ d ∈ ComponentA.mockSafeResults, strContains domain d = true) ∨ r > 3/10 := by
      rcases Bool.or_eq_true_iff.mp h with h1 | h2
      · exact Or.inl (by simpa [List.any_eq_true] using h1)
      · exact Or.inr (of_decide_eq_true h2)
    simp [ComponentA.checkSafeBrowsing, h, hs]
  · have hs : ¬ ((∃ d ∈ ComponentA.mockSafeResults, strContains domain d = true) ∨ r > 3/10) := by
      rintro (⟨d, hd, hc⟩ | hr)
      · exact h (Bool.or_eq_true_iff.mpr (Or.inl (List.any_eq_true.mpr ⟨d, hd, hc⟩)))
      · exact h (Bool.or_eq_true_iff.mpr (Or.inr (decide_eq_true hr)))
    simp [ComponentA.checkSafeBrowsing, h, hs]

/-- Witness for C6 at domain `"google.com"` and draw 0. -/
theorem claim_C6_checkSafeBrowsing_witness :
    (ComponentA.checkSafeBrowsing "google.com" 0).status = ComponentA.SBStatus.safe ∧
    (ComponentA.checkSafeBrowsing "google.com" 0).details = "No threats detected" := by
  have h := claim_C6_checkSafeBrowsing "google.com" 0
  have hs : (ComponentA.checkSafeBrowsing "google.com" 0).status = ComponentA.SBStatus.safe :=
    h.2.1.mpr (Or.inl ⟨"google.com", by simp [ComponentA.mockSafeResults], by rfl⟩)
  exact ⟨hs, h.2.2.1 hs⟩
/-- C1: on a 2xx response, Component B stores `{safe := true}` when the
match list is absent or empty, stores `{safe := false}` with exactly the
matches' `threatType` strings in order when it is non-empty, the stored
verdict is unsafe exactly when the match list is non-empty, and the
rendered tags are those strings with underscores replaced by spaces (none
when safe). -/
theorem claim_C1_verdict (s : ComponentB.BState) (status : Nat)
    (mts : Option (List ComponentB.ThreatMatch)) (v : String)
    (hurl : ¬ strTrim s.url = "")
    (hval : ComponentB.validateUrl (strTrim s.url) = .ok v)
    (hok : ComponentB.responseOk status = true) :
    (∀ res, (ComponentB.runCheckSafety s (.response status mts)).result = some res →
       (res.safe = false ↔ ∃ m ms, mts = some (m :: ms))) ∧
    ((mts = none ∨ mts = some []) →
       (ComponentB.runCheckSafety s (.response status mts)).result =
         some ⟨true, none⟩ ∧
       ComponentB.renderedThreatTags ⟨true, none⟩ = []) ∧
    (∀ m ms, mts = some (m :: ms) →
       (ComponentB.runCheckSafety s (.response status mts)).result =
         some ⟨false, some ((m :: ms).map (fun mm => mm.threatType))⟩ ∧
       ComponentB.renderedThreatTags
           ⟨false, some ((m :: ms).map (fun mm => mm.threatType))⟩ =
         ((m :: ms).map (fun mm => mm.threatType)).map replaceUnderscores) := by
  rcases mts with _ | ⟨_ | ⟨m, ms⟩⟩ <;>
    simp [ComponentB.runCheckSafety, ComponentB.checkSafetyTrace, hurl, hval, hok,
      ComponentB.applyBEvent, ComponentB.renderedThreatTags]

/-- Witness for C1: a scan of `"example.com"` against a 200 response with a
single SOCIAL_ENGINEERING match. -/
theorem claim_C1_verdict_witness :
    (ComponentB.runCheckSafety ⟨"example.com", false, none⟩
        (.response 200 (some [⟨"SOCIAL_ENGINEERING", "ANY_PLATFORM", "URL", "u"⟩]))).result =
      some ⟨false, some (([(⟨"SOCIAL_ENGINEERING", "ANY_PLATFORM", "URL", "u"⟩ :
        ComponentB.ThreatMatch)]).map (fun mm => mm.threatType))⟩ ∧
    ComponentB.renderedThreatTags
        ⟨false, some (([(⟨"SOCIAL_ENGINEERING", "ANY_PLATFORM", "URL", "u"⟩ :
          ComponentB.ThreatMatch)]).map (fun mm => mm.threatType))⟩ =
      (([(⟨"SOCIAL_ENGINEERING", "ANY_PLATFORM", "URL", "u"⟩ :
        ComponentB.ThreatMatch)]).map (fun mm => mm.threatType)).map replaceUnderscores :=
  (claim_C1_verdict ⟨"example.com", false, none⟩ 200
      (some [⟨"SOCIAL_ENGINEERING", "ANY_PLATFORM", "URL", "u"⟩]) "https://example.com/"
      (by decide) (by rfl) (by rfl)).2.2
    ⟨"SOCIAL_ENGINEERING", "ANY_PLATFORM", "URL", "u"⟩ [] rfl

/-- C4: on a non-2xx response, Component B raises `"API Error: <status>"`
as a destructive toast, the result state ends at `none` (cleared at scan
start, never assigned on the error path) whatever it was before, and the
trace indeed clears it as its second step. -/
theorem claim_C4_api_error (s : ComponentB.BState) (status : Nat)
    (mts : Option (List ComponentB.ThreatMatch)) (v : String)
    (hurl : ¬ strTrim s.url = "")
    (hval : ComponentB.validateUrl (strTrim s.url) = .ok v)
    (hbad : ComponentB.responseOk status = false) :
    (ComponentB.checkSafetyTrace s (.response status mts))[1]? =
      some (.setResult none) ∧
    (ComponentB.runCheckSafety s (.response status mts)).result = none ∧
    (ComponentB.runCheckSafety s (.response status mts)).isChecking = false ∧
    ComponentB.checkToasts s (.response status mts) =
      [⟨"Check Failed", "API Error: " ++ toString status, true⟩] := by
  simp [ComponentB.runCheckSafety, ComponentB.checkSafetyTrace, ComponentB.checkToasts,
    hurl, hval, hbad, ComponentB.applyBEvent]

/-- Witness for C4: a 403 response for `"example.com"`, starting from a
state that still holds a previous result. -/
theorem claim_C4_api_error_witness :
    (ComponentB.checkSafetyTrace ⟨"example.com", false, some ⟨true, none⟩⟩
        (.response 403 none))[1]? = some (.setResult none) ∧
    (ComponentB.runCheckSafety ⟨"example.com", false, some ⟨true, none⟩⟩
        (.response 403 none)).result = none ∧
    (ComponentB.runCheckSafety ⟨"example.com", false, some ⟨true, none⟩⟩
        (.response 403 none)).isChecking = false ∧
    ComponentB.checkToasts ⟨"example.com", false, some ⟨true, none⟩⟩
        (.response 403 none) =
      [⟨"Check Failed", "API Error: " ++ toString 403, true⟩] :=
  claim_C4_api_error ⟨"example.com", false, some ⟨true, none⟩⟩ 403 none
    "https://example.com/" (by decide) (by rfl) (by rfl)

/-- C7: whenever Component A's scan stores a non-null result, the stored
value is the full record of both fresh check outputs, and both check
resolutions occur strictly earlier in the trace (the `Promise.all` join). -/
theorem claim_C7_join_before_reveal (s : ComponentA.AState) (env : ComponentA.AEnv)
    (i : Nat) (r : ComponentA.SecurityResult)
    (h : (ComponentA.handleScanTrace s env)[i]? = some (.setResults (some r))) :
    (∃ domain, ComponentA.validateUrl (strTrim s.url) = .ok domain ∧
       r = ⟨ComponentA.checkSafeBrowsing domain env.sbRand,
            ComponentA.checkSSL env.sslIdx⟩) ∧
    (∃ j k, j < i ∧ k < i ∧
       (ComponentA.handleScanTrace s env)[j]? = some (.checkResolved 0) ∧
       (ComponentA.handleScanTrace s env)[k]? = some (.checkResolved 1)) := by
  by_cases hurl : strTrim s.url = ""
  · rcases i with _ | i <;> simp [ComponentA.handleScanTrace, hurl] at h
  · rcases hv : ComponentA.validateUrl (strTrim s.url) with msg | domain
    · rcases i with _ | _ | i <;> simp [ComponentA.handleScanTrace, hurl, hv] at h
    · rcases i with _ | _ | _ | _ | _ | _ | _ | i <;>
        simp [ComponentA.handleScanTrace, hurl, hv] at h
      refine ⟨⟨domain, rfl, ?_⟩, 2, 3, by omega, by omega, ?_, ?_⟩
      · rcases r with ⟨a, b⟩
        simp_all
      · simp [ComponentA.handleScanTrace, hurl, hv]
      · simp [ComponentA.handleScanTrace, hurl, hv]
/-- Witness for C7: a scan of `"example.com"` with draw 1 and grade index 0;
the one non-null result assignment sits at index 4, after both resolutions. -/
theorem claim_C7_join_before_reveal_witness :
    (∃ domain, ComponentA.validateUrl (strTrim "example.com") = .ok domain ∧
       (⟨ComponentA.checkSafeBrowsing "example.com" 1, ComponentA.checkSSL 0⟩ :
         ComponentA.SecurityResult) =
         ⟨ComponentA.checkSafeBrowsing domain 1, ComponentA.checkSSL 0⟩) ∧
    (∃ j k, j < 4 ∧ k < 4 ∧
       (ComponentA.handleScanTrace ⟨"example.com", false, none⟩ ⟨1, 0⟩)[j]? =
         some (.checkResolved 0) ∧
       (ComponentA.handleScanTrace ⟨"example.com", false, none⟩ ⟨1, 0⟩)[k]? =
         some (.checkResolved 1)) :=
  claim_C7_join_before_reveal ⟨"example.com", false, none⟩ ⟨1, 0⟩ 4
    ⟨ComponentA.checkSafeBrowsing "example.com" 1, ComponentA.checkSSL 0⟩ (by rfl)

/-- C8: a valid scan first clears Component A's results to null and ends
with results built solely from the two fresh check outputs, whatever result
was stored before. -/
theorem claim_C8_full_replacement (s : ComponentA.AState) (env : ComponentA.AEnv)
    (domain : String)
    (hurl : ¬ strTrim s.url = "")
    (hval : ComponentA.validateUrl (strTrim s.url) = .ok domain) :
    (ComponentA.handleScanTrace s env)[1]? = some (.setResults none) ∧
    (ComponentA.runHandleScan s env).results =
      some ⟨ComponentA.checkSafeBrowsing domain env.sbRand,
            ComponentA.checkSSL env.sslIdx⟩ := by
  simp [ComponentA.handleScanTrace, ComponentA.runHandleScan, hurl, hval,
    ComponentA.applyAEvent]

/-- Witness for C8: a second scan of `"example.com"` starting from a state
still holding an unrelated previous result. -/
theorem claim_C8_full_replacement_witness :
    (ComponentA.handleScanTrace
        ⟨"example.com", false, some ⟨⟨.unknown, "old"⟩, ⟨"F", .poor, "old"⟩⟩⟩
        ⟨0, 5⟩)[1]? = some (.setResults none) ∧
    (ComponentA.runHandleScan
        ⟨"example.com", false, some ⟨⟨.unknown, "old"⟩, ⟨"F", .poor, "old"⟩⟩⟩
        ⟨0, 5⟩).results =
      some ⟨ComponentA.checkSafeBrowsing "example.com" 0, ComponentA.checkSSL 5⟩ :=
  claim_C8_full_replacement _ _ "example.com" (by decide) (by rfl)

/-- C9: every scan with a non-empty URL ends with the scanning flag false in
both components; every failure (validation error in either component,
network error or non-2xx response in Component B) surfaces a destructive
toast; and a single scan never runs a check or request more than once. -/
theorem claim_C9_error_recovery (sA : ComponentA.AState) (envA : ComponentA.AEnv)
    (sB : ComponentB.BState) (envB : ComponentB.FetchOutcome) :
    (¬ strTrim sA.url = "" → (ComponentA.runHandleScan sA envA).isScanning = false) ∧
    (¬ strTrim sB.url = "" → (ComponentB.runCheckSafety sB envB).isChecking = false) ∧
    (∀ msg, ¬ strTrim sA.url = "" →
       ComponentA.validateUrl (strTrim sA.url) = .error msg →
       ∃ t ∈ ComponentA.scanToasts sA envA, t.destructive = true) ∧
    (∀ msg, ¬ strTrim sB.url = "" →
       ComponentB.validateUrl (strTrim sB.url) = .error msg →
       ∃ t ∈ ComponentB.checkToasts sB envB, t.destructive = true) ∧
    (∀ v, ¬ strTrim sB.url = "" →
       ComponentB.validateUrl (strTrim sB.url) = .ok v →
       ((∃ b m, envB = .networkError b m) ∨
        (∃ st mts, envB = .response st mts ∧ ComponentB.responseOk st = false)) →
       ∃ t ∈ ComponentB.checkToasts sB envB, t.destructive = true) ∧
    (ComponentA.handleScanTrace sA envA).countP (ComponentA.isCheckEvent 0) ≤ 1 ∧
    (ComponentA.handleScanTrace sA envA).countP (ComponentA.isCheckEvent 1) ≤ 1 ∧
    (ComponentB.checkSafetyTrace sB envB).countP ComponentB.isFetchEvent ≤ 1 := by
  refine ⟨?_, ?_, ?_, ?_, ?_, ?_, ?_, ?_⟩
  · intro hurl
    rcases hv : ComponentA.validateUrl (strTrim sA.url) with msg | domain <;>
      simp [ComponentA.runHandleScan, ComponentA.handleScanTrace, hurl, hv,
        ComponentA.applyAEvent]
  · intro hurl
    rcases hv : ComponentB.validateUrl (strTrim sB.url) with msg | v
    · simp [ComponentB.runCheckSafety, ComponentB.checkSafetyTrace, hurl, hv,
        ComponentB.applyBEvent]
    · rcases envB with ⟨b, m⟩ | ⟨st, mts⟩
      · simp [ComponentB.runCheckSafety, ComponentB.checkSafetyTrace, hurl, hv,
          ComponentB.applyBEvent]
      · by_cases hok : ComponentB.responseOk st = true
        · rcases mts with _ | ⟨_ | ⟨mm, mms⟩⟩ <;>
            simp [ComponentB.runCheckSafety, ComponentB.checkSafetyTrace, hurl, hv, hok,
              ComponentB.applyBEvent]
        · simp [ComponentB.runCheckSafety, ComponentB.checkSafetyTrace, hurl, hv, hok,
            ComponentB.applyBEvent]
  · intro msg hurl hv
    refine ⟨⟨"Scan Failed", msg, true⟩, ?_, rfl⟩
    simp [ComponentA.scanToasts, ComponentA.handleScanTrace, hurl, hv]
  · intro msg hurl hv
    refine ⟨⟨"Check Failed", msg, true⟩, ?_, rfl⟩
    simp [ComponentB.checkToasts, ComponentB.checkSafetyTrace, hurl, hv]
  · intro v hurl hv hfail
    rcases hfail with ⟨b, m, he⟩ | ⟨st, mts, he, hbad⟩ <;> subst he
    · by_cases hc : ComponentB.corsHeuristic b m = true
      · refine ⟨⟨"Connection Error",
          "Unable to connect to security service. This may be due to CORS restrictions.",
          true⟩, ?_, rfl⟩
        simp [ComponentB.checkToasts, ComponentB.checkSafetyTrace, hurl, hv, hc]
      · refine ⟨⟨"Check Failed", m, true⟩, ?_, rfl⟩
        simp [ComponentB.checkToasts, ComponentB.checkSafetyTrace, hurl, hv, hc]
    · refine ⟨⟨"Check Failed", "API Error: " ++ toString st, true⟩, ?_, rfl⟩
      simp [ComponentB.checkToasts, ComponentB.checkSafetyTrace, hurl, hv, hbad]
  · by_cases hurl : strTrim sA.url = ""
    · simp [ComponentA.handleScanTrace, hurl, ComponentA.isCheckEvent]
    · rcases hv : ComponentA.validateUrl (strTrim sA.url) with msg | domain <;>
        simp [ComponentA.handleScanTrace, hurl, hv, ComponentA.isCheckEvent]
  · by_cases hurl : strTrim sA.url = ""
    · simp [ComponentA.handleScanTrace, hurl, ComponentA.isCheckEvent]
    · rcases hv : ComponentA.validateUrl (strTrim sA.url) with msg | domain <;>
        simp [ComponentA.handleScanTrace, hurl, hv, ComponentA.isCheckEvent]
  · by_cases hurl : strTrim sB.url = ""
    · simp [ComponentB.checkSafetyTrace, hurl, ComponentB.isFetchEvent]
    · rcases hv : ComponentB.validateUrl (strTrim sB.url) with msg | v
      · simp [ComponentB.checkSafetyTrace, hurl, hv, ComponentB.isFetchEvent]
      · rcases envB with ⟨b, m⟩ | ⟨st, mts⟩
        · simp [ComponentB.checkSafetyTrace, hurl, hv, ComponentB.isFetchEvent]
        · by_cases hok : ComponentB.responseOk st = true
          · rcases mts with _ | ⟨_ | ⟨mm, mms⟩⟩ <;>
              simp [ComponentB.checkSafetyTrace, hurl, hv, hok, ComponentB.isFetchEvent]
          · simp [ComponentB.checkSafetyTrace, hurl, hv, hok, ComponentB.isFetchEvent]

/-- Witness for C9: an invalid URL in Component A and a network failure in
Component B both end with the flag lowered, and the validation failure
shows a destructive toast. -/
theorem claim_C9_error_recovery_witness :
    (ComponentA.runHandleScan ⟨"not a url", true, none⟩ ⟨0, 0⟩).isScanning = false ∧
    (ComponentB.runCheckSafety ⟨"not a url", true, none⟩
        (.networkError true "Failed to fetch")).isChecking = false ∧
    (∃ t ∈ ComponentA.scanToasts ⟨"not a url", true, none⟩ ⟨0, 0⟩,
       t.destructive = true) := by
  have h := claim_C9_error_recovery ⟨"not a url", true, none⟩ ⟨0, 0⟩
    ⟨"not a url", true, none⟩ (.networkError true "Failed to fetch")
  exact ⟨h.1 (by decide), h.2.1 (by decide),
    h.2.2.1 "Please enter a valid URL" (by decide) (by rfl)⟩

/-- C10: with an empty or all-whitespace URL, both scan handlers only show
the "URL Required" toast: the scanning flag is never set, no check or
request event occurs, and the whole state (previous result included) is
left unchanged. -/
theorem claim_C10_empty_input (sA : ComponentA.AState) (envA : ComponentA.AEnv)
    (sB : ComponentB.BState) (envB : ComponentB.FetchOutcome)
    (hA : strTrim sA.url = "") (hB : strTrim sB.url = "") :
    ComponentA.handleScanTrace sA envA =
      [.toastShown ⟨"URL Required", "Please enter a website URL to scan", true⟩] ∧
    ComponentA.runHandleScan sA envA = sA ∧
    ComponentB.checkSafetyTrace sB envB =
      [.toastShown ⟨"URL Required", "Please enter a website URL to check", true⟩] ∧
    ComponentB.runCheckSafety sB envB = sB := by
  simp [ComponentA.handleScanTrace, ComponentA.runHandleScan, ComponentA.applyAEvent,
    ComponentB.checkSafetyTrace, ComponentB.runCheckSafety, ComponentB.applyBEvent,
    hA, hB]

/-- Witness for C10: an all-whitespace URL in Component A (mid-scan state,
stored result) and an empty URL in Component B with a stored result. -/
theorem claim_C10_empty_input_witness :
    ComponentA.handleScanTrace
        ⟨"   ", true, some ⟨⟨.safe, "d"⟩, ⟨"A", .excellent, "d"⟩⟩⟩ ⟨0, 0⟩ =
      [.toastShown ⟨"URL Required", "Please enter a website URL to scan", true⟩] ∧
    ComponentA.runHandleScan
        ⟨"   ", true, some ⟨⟨.safe, "d"⟩, ⟨"A", .excellent, "d"⟩⟩⟩ ⟨0, 0⟩ =
      ⟨"   ", true, some ⟨⟨.safe, "d"⟩, ⟨"A", .excellent, "d"⟩⟩⟩ ∧
    ComponentB.checkSafetyTrace ⟨"", false, some ⟨true, none⟩⟩ (.response 200 none) =
      [.toastShown ⟨"URL Required", "Please enter a website URL to check", true⟩] ∧
    ComponentB.runCheckSafety ⟨"", false, some ⟨true, none⟩⟩ (.response 200 none) =
      ⟨"", false, some ⟨true, none⟩⟩ :=
  claim_C10_empty_input _ _ _ _ (by decide) (by rfl)
